import Mathlib

/-!
Verification of the authorization resolution engine of this repository.

The development shallowly embeds:

* `AsyncInstallationStoreAuthorize.__call__` and
  `AsyncInstallationStoreAuthorize._rotate_and_save_tokens_if_necessary`
  from `src/slack_bolt/authorization/async_authorize.py`;
* `AsyncCallableAuthorize.__call__` from the same file;
* `AmazonS3OAuthStateStore.issue` / `AmazonS3OAuthStateStore.consume`
  from `src/src/slack_sdk/oauth/state_store/amazon_s3/__init__.py`.

External collaborators (the installation store, the token rotator, the
`auth.test` web API call) are modelled as an environment of pure response
functions; a resolve call is then a pure function from configuration,
store shape, environment and resolver state to an outcome, a new state and
an instrumentation trace (which records how often each collaborator was
invoked, which token was handed to the verifier, and which token
candidates the full-installation path produced).

Python `NotImplementedError` from a store lookup signals that the store
does not support that capability (spec section 6: "signals NotImplemented
if unsupported"); it is therefore modelled as a per-capability property of
the environment (`none` means every call of that lookup raises
`NotImplementedError`), while data-dependent generic exceptions are
modelled per call via `CallResult.failure`.
-/

namespace SlackBolt

/-- Identifying coordinates of a resolve call: enterprise (organization) id,
team (workspace) id, requesting-user id, and the enterprise-install flag
taken from the request context. -/
structure Coords where
  enterprise_id : Option String
  team_id : Option String
  user_id : Option String
  is_enterprise_install : Bool
deriving Repr, DecidableEq

/-- The fields of `slack_sdk.oauth.installation_store.Installation` that
`async_authorize.py` reads or writes. -/
structure Installation where
  bot_token : Option String
  user_token : Option String
  user_id : Option String
  user_scopes : List String
  user_refresh_token : Option String
  bot_refresh_token : Option String
deriving Repr, DecidableEq

/-- The fields of `slack_sdk.oauth.installation_store.Bot` that
`async_authorize.py` reads. -/
structure Bot where
  bot_token : Option String
  bot_refresh_token : Option String
deriving Repr, DecidableEq

/-- The identity fields of a successful `auth.test` response that the
decision is built from. -/
structure AuthTestResponse where
  enterprise_id : Option String
  team_id : Option String
  user_id : Option String
  bot_id : Option String
deriving Repr, DecidableEq

/-- The resolver's output (`AuthorizeResult`): resolved identity plus the
separately tracked bot/user tokens. -/
structure AuthorizeResult where
  enterprise_id : Option String
  team_id : Option String
  user_id : Option String
  bot_id : Option String
  bot_token : Option String
  user_token : Option String
deriving Repr, DecidableEq

/-- Modelled from the spec: `AuthorizeResult.from_auth_test_response` lives
in `slack_bolt/authorization/authorize_result.py`, which is not among the
sources here.  Per spec section 4.1 step 6 the decision is built "from the
verification response plus the separately-tracked bot/user tokens". -/
def AuthorizeResult.from_auth_test_response (resp : AuthTestResponse)
    (bot_token user_token : Option String) : AuthorizeResult :=
  { enterprise_id := resp.enterprise_id
    team_id := resp.team_id
    user_id := resp.user_id
    bot_id := resp.bot_id
    bot_token := bot_token
    user_token := user_token }

/-- Result of one store lookup call that did not raise `NotImplementedError`:
a record, `None`, or some other exception. -/
inductive CallResult (α : Type) where
  | found : α → CallResult α
  | empty : CallResult α
  | failure : CallResult α
deriving Repr, DecidableEq

/-- The two `async_find_installation` calls a single resolve call can make:
the latest-installation lookup (no user id) and the user-specific lookup. -/
structure InstallationLookups where
  latest : CallResult Installation
  forUser : CallResult Installation
deriving Repr, DecidableEq

/-- Environment of one resolve call: responses of the external
collaborators.  A `none` capability means the store raises
`NotImplementedError` whenever that lookup is called. -/
structure Env where
  find_installation : Option InstallationLookups
  find_bot : Option (CallResult Bot)
  rotate_installation : Installation → Option Installation
  rotate_bot : Bot → Option Bot
  auth_test : String → Option AuthTestResponse

/-- Static shape of the installation store: the results of the two
`hasattr` probes in `__call__`. -/
structure StoreShape where
  has_find_installation : Bool
  has_find_bot : Bool
deriving Repr, DecidableEq

/-- Configuration of `AsyncInstallationStoreAuthorize`: `bot_only`,
`cache_enabled`, and whether a token rotator was constructed
(client id and secret both provided). -/
structure Config where
  bot_only : Bool
  cache_enabled : Bool
  has_token_rotator : Bool
deriving Repr, DecidableEq

/-- Mutable per-instance state of the resolver: the two memoized capability
flags and the verified-result cache. -/
structure ResolverState where
  find_installation_available : Option Bool
  find_bot_available : Option Bool
  cache : List (String × AuthorizeResult)
deriving Repr, DecidableEq

/-- Outcome of one resolve call. `ok none` is the NotFound outcome
(`return None`), `configError` is a raised `BoltError`, `storeError` is an
uncaught exception escaping an installation lookup. -/
inductive ResolveOutcome where
  | ok : Option AuthorizeResult → ResolveOutcome
  | configError : ResolveOutcome
  | storeError : ResolveOutcome
deriving Repr, DecidableEq

/-- Instrumentation of one resolve call. `cand_bot`/`cand_user` are the
token candidates when the bot-only-path condition is evaluated;
`final_bot`/`final_user` are the candidates at token-resolution time;
`resolved_token` is `bot_token or user_token`; `decision_tokens` is set
when a fresh decision is built and records the token pair handed to
`AuthorizeResult.from_auth_test_response`. -/
structure Trace where
  find_installation_calls : Nat
  find_bot_calls : Nat
  auth_test_calls : Nat
  auth_test_token : Option String
  cand_bot : Option String
  cand_user : Option String
  final_bot : Option String
  final_user : Option String
  resolved_token : Option String
  decision_tokens : Option (Option String × Option String)
deriving Repr, DecidableEq

/-- Result of a resolve call: outcome, new resolver state, trace. -/
structure ResolveRun where
  outcome : ResolveOutcome
  state : ResolverState
  trace : Trace
deriving Repr

/-- Python truthiness of an optional string: `None` and `""` are falsy. -/
def pyTruthy : Option String → Bool
  | none => false
  | some s => !(s == "")

/-- Python `a or b` on optional strings. -/
def pyOr (a b : Option String) : Option String :=
  if pyTruthy a then a else b

/-- Dictionary lookup in the `authorize_result_cache`. -/
def cacheLookup (cache : List (String × AuthorizeResult)) (token : String) :
    Option AuthorizeResult :=
  match cache.find? (fun p => p.1 == token) with
  | some p => some p.2
  | none => none

/-- Outcome of `_rotate_and_save_tokens_if_necessary`. -/
inductive RotateOutcome where
  | noOp : RotateOutcome
  | rotated : Installation → RotateOutcome
  | configError : RotateOutcome
deriving Repr

/-- `AsyncInstallationStoreAuthorize._rotate_and_save_tokens_if_necessary`:
no-op when the record is `None` or carries no refresh token; raises
`BoltError` when rotation is needed but no rotator is configured; otherwise
performs the rotation (and saves the refreshed record, a store side effect
not tracked here). -/
def rotate_and_save_tokens_if_necessary (cfg : Config) (env : Env)
    (installation : Option Installation) : RotateOutcome :=
  match installation with
  | none => .noOp
  | some inst =>
    if inst.user_refresh_token = none ∧ inst.bot_refresh_token = none then
      .noOp
    else if cfg.has_token_rotator = false then
      .configError
    else
      match env.rotate_installation inst with
      | some refreshed => .rotated refreshed
      | none => .noOp

/-- Abnormal termination of the full-installation path: a raised
`BoltError` or an uncaught store exception. -/
inductive PathErr where
  | config : PathErr
  | store : PathErr
deriving Repr, DecidableEq

/-- What the full-installation path produced: the two token candidates, the
(possibly downgraded) `find_installation_available` flag, the number of
`async_find_installation` calls made, and an abnormal-termination marker. -/
structure FullPathOut where
  bot_token : Option String
  user_token : Option String
  fia : Bool
  calls : Nat
  err : Option PathErr
deriving Repr, DecidableEq

/-- Lines 226-235 of `async_authorize.py`: rotation of the latest
installation after the (optional) user-specific step.  `latest` is the
latest installation, with its `user_token`/`user_scopes` already cleared
when the installer differs from the requesting user. -/
def afterUserStep (cfg : Config) (env : Env) (latest : Installation)
    (bot_token user_token : Option String)
    (this_user_installation : Option Installation) (calls : Nat) : FullPathOut :=
  match rotate_and_save_tokens_if_necessary cfg env (some latest) with
  | .configError => ⟨bot_token, user_token, true, calls, some .config⟩
  | .noOp => ⟨bot_token, user_token, true, calls, none⟩
  | .rotated refreshed =>
    ⟨refreshed.bot_token,
     if this_user_installation.isNone then refreshed.user_token else user_token,
     true, calls, none⟩

/-- Lines 168-238 of `async_authorize.py`: the full-installation path.
Latest-installation lookup, owner-mismatch handling with the user-specific
lookup, rotation of the user-specific record, then rotation of the latest
record.  Note that on an owner mismatch the source clears
`latest_installation.user_token` (the object field) but not the local
`user_token` variable. -/
def fullPath (cfg : Config) (env : Env) (coords : Coords) : FullPathOut :=
  match env.find_installation with
  | none => ⟨none, none, false, 1, none⟩
  | some lookups =>
    match lookups.latest with
    | .failure => ⟨none, none, true, 1, some .store⟩
    | .empty => ⟨none, none, true, 1, none⟩
    | .found latest_installation =>
      let bot_token := latest_installation.bot_token
      let user_token := latest_installation.user_token
      if latest_installation.user_id ≠ coords.user_id then
        let latest' : Installation :=
          { latest_installation with user_token := none, user_scopes := [] }
        match lookups.forUser with
        | .failure => ⟨bot_token, user_token, true, 2, some .store⟩
        | .empty => afterUserStep cfg env latest' bot_token user_token none 2
        | .found this_user_installation =>
          let user_token := this_user_installation.user_token
          let bot_token :=
            if latest_installation.bot_token = none then
              this_user_installation.bot_token
            else bot_token
          match rotate_and_save_tokens_if_necessary cfg env (some this_user_installation) with
          | .configError => ⟨bot_token, user_token, true, 2, some .config⟩
          | .noOp =>
            afterUserStep cfg env latest' bot_token user_token
              (some this_user_installation) 2
          | .rotated refreshed =>
            let user_token := refreshed.user_token
            let bot_token :=
              if latest_installation.bot_token = none then refreshed.bot_token
              else bot_token
            afterUserStep cfg env latest' bot_token user_token
              (some this_user_installation) 2
      else
        afterUserStep cfg env latest_installation bot_token user_token none 1

/-- What the bot-only path produced: the new bot-token candidate and
whether `async_find_bot` raised `NotImplementedError`. -/
structure BotPathOut where
  bot_token : Option String
  notImpl : Bool
deriving Repr, DecidableEq

/-- Lines 252-275 of `async_authorize.py`: the bot-only path.  All
exceptions other than `NotImplementedError` are caught by the blanket
`except Exception` handler and only logged - including the `BoltError`
raised at line 263 when a bot refresh token is present but no rotator is
configured, so in that case execution continues with the stale token. -/
def botPath (cfg : Config) (env : Env) (bot_token0 : Option String) : BotPathOut :=
  match env.find_bot with
  | none => ⟨bot_token0, true⟩
  | some .failure => ⟨bot_token0, false⟩
  | some .empty => ⟨bot_token0, false⟩
  | some (.found bot) =>
    let bot_token := bot.bot_token
    if bot.bot_refresh_token ≠ none then
      if cfg.has_token_rotator = false then
        ⟨bot_token, false⟩
      else
        match env.rotate_bot bot with
        | some refreshed => ⟨refreshed.bot_token, false⟩
        | none => ⟨bot_token, false⟩
    else ⟨bot_token, false⟩

/-- Lines 277-302 of `async_authorize.py`: token resolution
(`bot_token or user_token`), NotFound on no token, cache check,
`auth.test` verification, decision construction and cache population. -/
def verifyStep (cfg : Config) (env : Env) (cache : List (String × AuthorizeResult))
    (fiaFlag fbaFlag : Option Bool) (bot_token user_token : Option String)
    (tr : Trace) : ResolveRun :=
  match pyOr bot_token user_token with
  | none =>
    ⟨.ok none, ⟨fiaFlag, fbaFlag, cache⟩,
     { tr with final_bot := bot_token, final_user := user_token,
               resolved_token := none, auth_test_calls := 0,
               auth_test_token := none, decision_tokens := none }⟩
  | some token =>
    if cfg.cache_enabled = true ∧ (cacheLookup cache token).isSome then
      ⟨.ok (cacheLookup cache token), ⟨fiaFlag, fbaFlag, cache⟩,
       { tr with final_bot := bot_token, final_user := user_token,
                 resolved_token := some token, auth_test_calls := 0,
                 auth_test_token := none, decision_tokens := none }⟩
    else
      match env.auth_test token with
      | none =>
        ⟨.ok none, ⟨fiaFlag, fbaFlag, cache⟩,
         { tr with final_bot := bot_token, final_user := user_token,
                   resolved_token := some token, auth_test_calls := 1,
                   auth_test_token := some token, decision_tokens := none }⟩
      | some resp =>
        let result := AuthorizeResult.from_auth_test_response resp bot_token user_token
        ⟨.ok (some result),
         ⟨fiaFlag, fbaFlag,
          if cfg.cache_enabled = true then (token, result) :: cache else cache⟩,
         { tr with final_bot := bot_token, final_user := user_token,
                   resolved_token := some token, auth_test_calls := 1,
                   auth_test_token := some token,
                   decision_tokens := some (bot_token, user_token) }⟩

/-- Lines 240-302 of `async_authorize.py`: the bot-only-path condition
(`bot_only`, or `find_installation` unavailable, or no token yielded while
`find_bot` is known available), followed by token resolution and
verification.  `fia` is the `find_installation_available` flag as it stands
after the full-installation path; `fba` is the `find_bot_available` flag
set at the top of the call. -/
def finishResolve (cfg : Config) (env : Env)
    (cache : List (String × AuthorizeResult)) (fia fba : Bool)
    (bot_token user_token : Option String) (instCalls : Nat) : ResolveRun :=
  let tr0 : Trace :=
    ⟨instCalls, 0, 0, none, bot_token, user_token, none, none, none, none⟩
  if cfg.bot_only = true ∨ fia = false ∨
      (fba = true ∧ bot_token = none ∧ user_token = none) then
    let bp := botPath cfg env bot_token
    verifyStep cfg env cache (some fia)
      (some (if bp.notImpl then false else fba)) bp.bot_token user_token
      { tr0 with find_bot_calls := 1 }
  else
    verifyStep cfg env cache (some fia) (some fba) bot_token user_token tr0

/-- `AsyncInstallationStoreAuthorize.__call__`: capability probing
(memoized `hasattr` checks), the full-installation path when enabled and
available, then `finishResolve`.  A `BoltError` raised inside the
full-installation path propagates (`configError`), as does any exception
other than `NotImplementedError` from `async_find_installation`
(`storeError`). -/
def resolve (cfg : Config) (shape : StoreShape) (env : Env)
    (st : ResolverState) (coords : Coords) : ResolveRun :=
  let fia0 := st.find_installation_available.getD shape.has_find_installation
  let fba0 := st.find_bot_available.getD shape.has_find_bot
  if cfg.bot_only = false ∧ fia0 = true then
    let fp := fullPath cfg env coords
    match fp.err with
    | some .config =>
      ⟨.configError, ⟨some fp.fia, some fba0, st.cache⟩,
       ⟨fp.calls, 0, 0, none, none, none, none, none, none, none⟩⟩
    | some .store =>
      ⟨.storeError, ⟨some fp.fia, some fba0, st.cache⟩,
       ⟨fp.calls, 0, 0, none, none, none, none, none, none, none⟩⟩
    | none =>
      finishResolve cfg env st.cache fp.fia fba0 fp.bot_token fp.user_token fp.calls
  else
    finishResolve cfg env st.cache fia0 fba0 none none 0

/-- A sequence of resolve calls on the same resolver instance, threading
the resolver state. -/
def runCalls (cfg : Config) (shape : StoreShape) :
    ResolverState → List (Env × Coords) → List ResolveRun
  | _, [] => []
  | st, (env, coords) :: rest =>
    let r := resolve cfg shape env st coords
    r :: runCalls cfg shape r.state rest

/-- The latest installation after the owner-mismatch check of lines
195-198: when the installing user differs from the requesting user, the
record's `user_token` and `user_scopes` are cleared. -/
def latestAfterOwnerCheck (inst : Installation) (uid : Option String) : Installation :=
  if inst.user_id ≠ uid then { inst with user_token := none, user_scopes := [] }
  else inst

/-- The bot-token candidate after rotating a record: the refreshed
record's bot token when a rotation result was produced, the previous
candidate otherwise. -/
def refreshedBot (cfg : Config) (env : Env) (l : Installation)
    (bt : Option String) : Option String :=
  match rotate_and_save_tokens_if_necessary cfg env (some l) with
  | .rotated refreshed => refreshed.bot_token
  | _ => bt

/-- The latest installation's possibly refreshed bot token: the bot token
of the record produced by rotating the (owner-checked) latest
installation, or the original bot token when no rotation happened. -/
def latestRefreshedBotToken (cfg : Config) (env : Env) (inst : Installation)
    (uid : Option String) : Option String :=
  refreshedBot cfg env (latestAfterOwnerCheck inst uid) inst.bot_token

/-- Modelled from the spec: the token rotator
(`slack_sdk.oauth.token_rotation.async_rotator.AsyncTokenRotator`) is code
of this repository that is not among the sources here.  Spec section 4.2:
the rotation "performs the exchange(s) needed (independently for bot-side
and user-side refresh credentials, since either may be absent), producing
a new record with updated access and refresh credentials".  So when a
rotation result is produced, the bot side carries a fresh (non-null)
access token if a bot refresh credential was present, and is untouched
otherwise. -/
def RotatorOK (rot : Installation → Option Installation) : Prop :=
  ∀ r r', rot r = some r' →
    (r.bot_refresh_token.isSome → r'.bot_token.isSome) ∧
    (r.bot_refresh_token = none → r'.bot_token = r.bot_token)

/-! ### The decision-function adapter (`AsyncCallableAuthorize.__call__`) -/

/-- Values passed as keyword arguments to the caller-supplied authorize
function (opaque for this development). -/
abbrev PyVal := String

/-- Lines 76-83 of `async_authorize.py`: select from the available named
values the subset matching the function's declared parameter names, then
supply `None` (with a warning) for each declared name not found. -/
def buildKwargs (arg_names : List String) (available : List (String × PyVal)) :
    List (String × Option PyVal) :=
  (available.filter (fun p => arg_names.contains p.1)).map
      (fun p => (p.1, some p.2)) ++
    (arg_names.filter
        (fun n => !((available.map Prod.fst).contains n))).map
      (fun n => (n, (none : Option PyVal)))

/-- How the invocation of the caller-supplied function ends: it returns
`None`, returns an `AuthorizeResult`, returns a value of some other type,
or raises `SlackApiError` (the invalid-credential signal). -/
inductive FuncResult where
  | noneValue : FuncResult
  | decision : AuthorizeResult → FuncResult
  | otherValue : FuncResult
  | invalidCredential : FuncResult
deriving Repr, DecidableEq

/-- Outcome of the adapter: a returned value (`ok none` is NotFound) or
the raised `ValueError` for a non-decision return value. -/
inductive AdapterOutcome where
  | ok : Option AuthorizeResult → AdapterOutcome
  | typeError : AdapterOutcome
deriving Repr, DecidableEq

/-- Lines 49-100 of `async_authorize.py`
(`AsyncCallableAuthorize.__call__`): build the keyword arguments, invoke
the function, pass `None` through, require an `AuthorizeResult` otherwise
(raising `ValueError`, which the `except SlackApiError` clause does not
catch), and turn a raised `SlackApiError` into a logged NotFound. -/
def callableAuthorize (arg_names : List String)
    (available : List (String × PyVal))
    (func : List (String × Option PyVal) → FuncResult) : AdapterOutcome :=
  match func (buildKwargs arg_names available) with
  | .noneValue => .ok none
  | .decision d => .ok (some d)
  | .otherValue => .typeError
  | .invalidCredential => .ok none

/-! ### The Amazon S3 OAuth state store -/

/-- The S3 bucket contents as seen by the state store: a map from object
key to the stored creation timestamp (`str(time.time())` is written as the
body and parsed back with `float`; timestamps are modelled as integers
since only their ordering matters). -/
def bucketGet (b : List (String × Int)) (k : String) : Option Int :=
  (b.find? (fun p => p.1 == k)).map Prod.snd

/-- S3 `delete_object`. -/
def bucketDelete (b : List (String × Int)) (k : String) : List (String × Int) :=
  b.filter (fun p => !(p.1 == k))

/-- S3 `put_object` (overwrites any existing object under the key). -/
def bucketPut (b : List (String × Int)) (k : String) (v : Int) :
    List (String × Int) :=
  (k, v) :: bucketDelete b k

/-- `AmazonS3OAuthStateStore.issue`: store the current time under the
freshly generated state key (the `uuid4()` value and the current time are
parameters of the model). -/
def issue (b : List (String × Int)) (state : String) (now : Int) :
    List (String × Int) :=
  bucketPut b state now

/-- `AmazonS3OAuthStateStore.consume`: fetch the stored creation time,
compute validity against `expiration_seconds`, delete the object
unconditionally, and return the validity flag; any failure (including a
missing key) is caught, logged, and yields `false` with the bucket
untouched. -/
def consume (expiration_seconds : Int) (b : List (String × Int))
    (state : String) (now : Int) : Bool × List (String × Int) :=
  match bucketGet b state with
  | none => (false, b)
  | some created =>
    (decide (now < created + expiration_seconds), bucketDelete b state)

/-! ### Concrete scenarios used by the claim theorems and witnesses -/

/-- A store exposing both lookup methods. -/
def shape1 : StoreShape := ⟨true, true⟩

/-- A freshly constructed resolver: no capability probed, empty cache. -/
def st0 : ResolverState := ⟨none, none, []⟩

/-- A fixed successful `auth.test` response. -/
def respT1 : AuthTestResponse := ⟨none, some "T1", some "UB", some "B1"⟩

/-- Coordinates `(org=None, team="T1", user="U1")`. -/
def coordsU1 : Coords := ⟨none, some "T1", some "U1", false⟩

/-- Scenario C1: latest installation installed by `U_owner` with bot token
`xoxb-1` and user token `xoxp-owner`, no refresh tokens. -/
def instC1 : Installation :=
  ⟨some "xoxb-1", some "xoxp-owner", some "U_owner", [], none, none⟩

/-- Scenario C1 environment: latest lookup finds `instC1`, the
user-specific lookup returns none, verification succeeds. -/
def envC1 : Env :=
  { find_installation := some ⟨.found instC1, .empty⟩
    find_bot := some .empty
    rotate_installation := fun _ => none
    rotate_bot := fun _ => none
    auth_test := fun _ => some respT1 }

/-- Config without bot-only mode, cache, or token rotator. -/
def cfgPlain : Config := ⟨false, false, false⟩

/-- Scenario C3: a bot record carrying a refresh token while no rotator is
configured. -/
def botC3 : Bot := ⟨some "xoxb-stale", some "xoxr-refresh"⟩

/-- Scenario C3 environment. -/
def envC3 : Env :=
  { find_installation := some ⟨.empty, .empty⟩
    find_bot := some (.found botC3)
    rotate_installation := fun _ => none
    rotate_bot := fun _ => none
    auth_test := fun _ => some respT1 }

/-- Bot-only config without cache or rotator. -/
def cfgBotOnly : Config := ⟨true, false, false⟩

/-- Config with the result cache enabled. -/
def cfgCache : Config := ⟨false, true, false⟩

/-- Bot-only config with the result cache enabled. -/
def cfgBotOnlyCache : Config := ⟨true, true, false⟩

/-- First C2-counterexample store state: an installation holding only the
user token `TOK` for installer `U1`. -/
def instC2a : Installation := ⟨none, some "TOK", some "U1", [], none, none⟩

/-- Second C2-counterexample store state: the latest installation now
carries `TOK` as its bot token. -/
def instC2b : Installation := ⟨some "TOK", none, some "U1", [], none, none⟩

/-- Environment for the first C2-counterexample call. -/
def envC2a : Env :=
  { find_installation := some ⟨.found instC2a, .empty⟩
    find_bot := some .empty
    rotate_installation := fun _ => none
    rotate_bot := fun _ => none
    auth_test := fun _ => some respT1 }

/-- Environment for the second C2-counterexample call. -/
def envC2b : Env :=
  { find_installation := some ⟨.found instC2b, .empty⟩
    find_bot := some .empty
    rotate_installation := fun _ => none
    rotate_bot := fun _ => none
    auth_test := fun _ => some respT1 }

/-- The decision cached by the first C2-counterexample call: verified via
the user token, so its bot token is `None`. -/
def dC2a : AuthorizeResult := ⟨none, some "T1", some "UB", some "B1", none, some "TOK"⟩

/-- C2 witness installation: latest installation with bot token `xoxb-9`,
installed by the requesting user, no refresh tokens. -/
def instC2w : Installation := ⟨some "xoxb-9", none, some "U1", [], none, none⟩

/-- C2 witness environment. -/
def envC2w : Env :=
  { find_installation := some ⟨.found instC2w, .empty⟩
    find_bot := some .empty
    rotate_installation := fun _ => none
    rotate_bot := fun _ => none
    auth_test := fun _ => some respT1 }

/-- The decision produced in the C2 witness scenario. -/
def dC2w : AuthorizeResult :=
  ⟨none, some "T1", some "UB", some "B1", some "xoxb-9", none⟩

/-- A bot record with token `xoxb-1` and no refresh token. -/
def botPlain : Bot := ⟨some "xoxb-1", none⟩

/-- Environment whose verifier rejects every token (`SlackApiError` from
`auth.test`), while `find_bot` yields `botPlain`. -/
def envReject : Env :=
  { find_installation := some ⟨.empty, .empty⟩
    find_bot := some (.found botPlain)
    rotate_installation := fun _ => none
    rotate_bot := fun _ => none
    auth_test := fun _ => none }

/-- Environment where `find_bot` yields `botPlain` and verification
succeeds. -/
def envBotOk : Env :=
  { find_installation := some ⟨.empty, .empty⟩
    find_bot := some (.found botPlain)
    rotate_installation := fun _ => none
    rotate_bot := fun _ => none
    auth_test := fun _ => some respT1 }

/-- The decision produced from `botPlain` and `respT1`. -/
def dBotPlain : AuthorizeResult :=
  ⟨none, some "T1", some "UB", some "B1", some "xoxb-1", none⟩

/-- The decision produced in the C3 scenario: built from the stale,
never-rotated bot token. -/
def dC3 : AuthorizeResult :=
  ⟨none, some "T1", some "UB", some "B1", some "xoxb-stale", none⟩

/-- C7-counterexample installation: no access token at all, but a user
refresh token. -/
def instC7 : Installation := ⟨none, none, some "U1", [], some "xoxe-r", none⟩

/-- C7-counterexample environment: the store holds no access token under
any strategy, yet the fetched installation demands rotation. -/
def envC7 : Env :=
  { find_installation := some ⟨.found instC7, .empty⟩
    find_bot := some .empty
    rotate_installation := fun _ => none
    rotate_bot := fun _ => none
    auth_test := fun _ => some respT1 }

/-- Environment whose installation lookup raises `NotImplementedError`. -/
def envNoInst : Env :=
  { find_installation := none
    find_bot := some .empty
    rotate_installation := fun _ => none
    rotate_bot := fun _ => none
    auth_test := fun _ => some respT1 }

/-! ## Theorems -/

/-- Claim C1: in the scenario `(org=None, team="T1", user="U1")` with
latest installation `{bot_token: "xoxb-1", user_token: "xoxp-owner",
installer: "U_owner"}`, no refresh tokens, and a user-specific lookup
returning none, the claim expects the decision
`{bot_token: "xoxb-1", user_token: None}`.  The code instead builds the
decision with the installer's user token `"xoxp-owner"`: the
owner-mismatch discard at lines 195-198 clears only the installation
object's field, not the local `user_token` variable that lines 289-293
hand to the decision. -/
theorem c1_owner_mismatch_scenario :
    (resolve cfgPlain shape1 envC1 st0 coordsU1).trace.decision_tokens =
      some (some "xoxb-1", some "xoxp-owner") ∧
    (resolve cfgPlain shape1 envC1 st0 coordsU1).outcome =
      .ok (some ⟨none, some "T1", some "UB", some "B1",
                 some "xoxb-1", some "xoxp-owner"⟩) :=
  ⟨rfl, rfl⟩

/-- Claim C3: with a bot record carrying a refresh token and no refresher
configured, the claim (and the spec) expect `resolve` to raise the
configuration error.  The code raises `BoltError` at line 263, but that
raise sits inside the bot path's `try` block whose blanket
`except Exception` handler (line 274) catches and merely logs it, so the
call proceeds and returns a decision built from the stale, never-rotated
bot token. -/
theorem c3_config_error_swallowed :
    (resolve cfgBotOnly shape1 envC3 st0 coordsU1).outcome = .ok (some dC3) ∧
    dC3.bot_token = some "xoxb-stale" ∧
    (resolve cfgBotOnly shape1 envC3 st0 coordsU1).outcome ≠ .configError :=
  ⟨rfl, rfl, by decide⟩

/-- Claim C2 counterexample: with the cache enabled, a first call caches
under key `"TOK"` a decision that was verified via the user token (so its
bot token is `None`); a second call whose latest installation supplies
`"TOK"` as a non-null bot token returns that cached decision — the
returned decision's bot token (`None`) does not equal the latest
installation's (un-refreshed) bot token `some "TOK"`. -/
theorem c2_counterexample :
    instC2b.bot_token = some "TOK" ∧
    envC2b.find_installation = some ⟨.found instC2b, .empty⟩ ∧
    (resolve cfgCache shape1 envC2b
        (resolve cfgCache shape1 envC2a st0 coordsU1).state coordsU1).outcome =
      .ok (some dC2a) ∧
    dC2a.bot_token = none :=
  ⟨rfl, rfl, rfl, rfl⟩

/-- Claim C5 counterexample: cache enabled, two consecutive calls on the
same resolver both resolve to the token `"xoxb-1"`, but the verifier
rejects it on the first call, so no cache entry is written and the second
call invokes the verifier again — two invocations, not at most one. -/
theorem c5_counterexample :
    cfgBotOnlyCache.cache_enabled = true ∧
    (resolve cfgBotOnlyCache shape1 envReject st0 coordsU1).trace.resolved_token =
      some "xoxb-1" ∧
    (resolve cfgBotOnlyCache shape1 envReject
        (resolve cfgBotOnlyCache shape1 envReject st0 coordsU1).state
        coordsU1).trace.resolved_token = some "xoxb-1" ∧
    (resolve cfgBotOnlyCache shape1 envReject st0 coordsU1).trace.auth_test_calls +
      (resolve cfgBotOnlyCache shape1 envReject
        (resolve cfgBotOnlyCache shape1 envReject st0 coordsU1).state
        coordsU1).trace.auth_test_calls = 2 :=
  ⟨rfl, rfl, rfl, rfl⟩

/-- Claim C7 counterexample: the store holds no access token under any
strategy (the latest installation carries only a user refresh token, the
user-specific lookup and the bot lookup return none), yet with no
refresher configured `resolve` raises the configuration error instead of
returning NotFound without raising. -/
theorem c7_counterexample :
    instC7.bot_token = none ∧ instC7.user_token = none ∧
    envC7.find_bot = some .empty ∧
    (resolve cfgPlain shape1 envC7 st0 coordsU1).outcome = .configError :=
  ⟨rfl, rfl, rfl, rfl⟩

/-- Claim C9: for every invocation of the decision-function adapter — over
any declared parameter names, any available named values, and any
caller-supplied function — a non-null return value that is not an
`AuthorizeResult` makes the adapter raise the type error; a `None` return
is passed through; a returned `AuthorizeResult` is passed through; and a
raised invalid-credential signal is logged and turned into NotFound
rather than propagated. -/
theorem c9_adapter_return_handling (arg_names : List String)
    (available : List (String × PyVal))
    (func : List (String × Option PyVal) → FuncResult) :
    (func (buildKwargs arg_names available) = .otherValue →
      callableAuthorize arg_names available func = .typeError) ∧
    (func (buildKwargs arg_names available) = .noneValue →
      callableAuthorize arg_names available func = .ok none) ∧
    (∀ d, func (buildKwargs arg_names available) = .decision d →
      callableAuthorize arg_names available func = .ok (some d)) ∧
    (func (buildKwargs arg_names available) = .invalidCredential →
      callableAuthorize arg_names available func = .ok none) := by
  refine ⟨fun h => ?_, fun h => ?_, fun d h => ?_, fun h => ?_⟩ <;>
    simp [callableAuthorize, h]

/-- Witness for C9 at concrete inputs. -/
theorem c9_witness :
    callableAuthorize ["user_id"] [("user_id", "U1")] (fun _ => .otherValue) =
      .typeError ∧
    callableAuthorize ["user_id"] [("user_id", "U1")] (fun _ => .noneValue) =
      .ok none ∧
    callableAuthorize ["user_id"] [("user_id", "U1")]
        (fun _ => .invalidCredential) = .ok none :=
  ⟨(c9_adapter_return_handling _ _ _).1 rfl,
   (c9_adapter_return_handling _ _ _).2.1 rfl,
   (c9_adapter_return_handling _ _ _).2.2.2 rfl⟩

/-- Looking up the key just inserted returns its value. -/
theorem cacheLookup_cons_self (c : List (String × AuthorizeResult))
    (k : String) (v : AuthorizeResult) :
    cacheLookup ((k, v) :: c) k = some v := by
  simp [cacheLookup, List.find?_cons]

/-- Facts about `verifyStep` that hold in every branch: the capability
flags are stored as passed, the call counters and full-path candidates in
the trace are preserved, the final candidates and the resolved token are
recorded, `auth.test` is called at most once, and the outcome is always a
normal return. -/
theorem verifyStep_props (cfg : Config) (env : Env)
    (cache : List (String × AuthorizeResult)) (f1 f2 : Option Bool)
    (bt ut : Option String) (tr : Trace) :
    (verifyStep cfg env cache f1 f2 bt ut tr).state.find_installation_available = f1 ∧
    (verifyStep cfg env cache f1 f2 bt ut tr).state.find_bot_available = f2 ∧
    (verifyStep cfg env cache f1 f2 bt ut tr).trace.find_installation_calls =
      tr.find_installation_calls ∧
    (verifyStep cfg env cache f1 f2 bt ut tr).trace.find_bot_calls =
      tr.find_bot_calls ∧
    (verifyStep cfg env cache f1 f2 bt ut tr).trace.cand_bot = tr.cand_bot ∧
    (verifyStep cfg env cache f1 f2 bt ut tr).trace.cand_user = tr.cand_user ∧
    (verifyStep cfg env cache f1 f2 bt ut tr).trace.final_bot = bt ∧
    (verifyStep cfg env cache f1 f2 bt ut tr).trace.final_user = ut ∧
    (verifyStep cfg env cache f1 f2 bt ut tr).trace.resolved_token = pyOr bt ut ∧
    (verifyStep cfg env cache f1 f2 bt ut tr).trace.auth_test_calls ≤ 1 ∧
    (∃ o, (verifyStep cfg env cache f1 f2 bt ut tr).outcome = .ok o) := by
  unfold verifyStep
  split
  · rename_i h; simp [h]
  · rename_i tok h
    split
    · simp [h]
    · split <;> simp [h]

/-- If `verifyStep` recorded a verifier call on token `t`, then `t` is the
resolved token `bot_token or user_token`. -/
theorem verifyStep_auth_token_some (cfg : Config) (env : Env)
    (cache : List (String × AuthorizeResult)) (f1 f2 : Option Bool)
    (bt ut : Option String) (tr : Trace) (t : String) :
    (verifyStep cfg env cache f1 f2 bt ut tr).trace.auth_test_token = some t →
    pyOr bt ut = some t := by
  unfold verifyStep
  split
  · intro ht; simp at ht
  · rename_i tok h
    split
    · intro ht; simp at ht
    · split
      · intro ht; simp at ht; subst ht; exact h
      · intro ht; simp at ht; subst ht; exact h

/-- If the verifier was called on `t` and rejects it, `verifyStep` returns
NotFound and leaves the cache unchanged. -/
theorem verifyStep_reject (cfg : Config) (env : Env)
    (cache : List (String × AuthorizeResult)) (f1 f2 : Option Bool)
    (bt ut : Option String) (tr : Trace) (t : String) :
    (verifyStep cfg env cache f1 f2 bt ut tr).trace.auth_test_token = some t →
    env.auth_test t = none →
    (verifyStep cfg env cache f1 f2 bt ut tr).outcome = .ok none ∧
    (verifyStep cfg env cache f1 f2 bt ut tr).state.cache = cache := by
  unfold verifyStep
  split
  · intro ht _; simp at ht
  · rename_i tok h
    split
    · intro ht _; simp at ht
    · split
      · intro _ _; exact ⟨rfl, rfl⟩
      · rename_i resp hsome
        intro ht henv
        simp at ht; subst ht
        rw [henv] at hsome; cases hsome

/-- With the cache enabled, a successful decision leaves the resolved
token present in the resulting cache. -/
theorem verifyStep_cache_of_ok (cfg : Config) (env : Env)
    (cache : List (String × AuthorizeResult)) (f1 f2 : Option Bool)
    (bt ut : Option String) (tr : Trace) (d : AuthorizeResult) (tok : String) :
    cfg.cache_enabled = true →
    (verifyStep cfg env cache f1 f2 bt ut tr).outcome = .ok (some d) →
    (verifyStep cfg env cache f1 f2 bt ut tr).trace.resolved_token = some tok →
    (cacheLookup (verifyStep cfg env cache f1 f2 bt ut tr).state.cache tok).isSome := by
  unfold verifyStep
  split
  · intro _ _ hres; simp at hres
  · rename_i token h
    split
    · rename_i hcond
      intro _ _ hres
      simp at hres; subst hres
      exact hcond.2
    · rename_i hcond
      split
      · intro _ hout _; simp at hout
      · rename_i resp hsome
        intro hcfg _ hres
        simp at hres; subst hres
        simp [hcfg, cacheLookup_cons_self]

/-- With the cache enabled and the resolved token already cached, the
verifier is not called. -/
theorem verifyStep_cachehit_no_auth (cfg : Config) (env : Env)
    (cache : List (String × AuthorizeResult)) (f1 f2 : Option Bool)
    (bt ut : Option String) (tr : Trace) (tok : String) :
    cfg.cache_enabled = true →
    (cacheLookup cache tok).isSome →
    (verifyStep cfg env cache f1 f2 bt ut tr).trace.resolved_token = some tok →
    (verifyStep cfg env cache f1 f2 bt ut tr).trace.auth_test_calls = 0 := by
  unfold verifyStep
  split
  · intro _ _ hres; simp at hres
  · rename_i token h
    split
    · intro _ _ _; rfl
    · rename_i hcond
      intro hcfg hlook hres
      exfalso
      split at hres <;> simp at hres <;> subst hres <;>
        exact hcond ⟨hcfg, hlook⟩

/-- With the cache disabled, resolving a token always calls the verifier. -/
theorem verifyStep_nocache_auth (cfg : Config) (env : Env)
    (cache : List (String × AuthorizeResult)) (f1 f2 : Option Bool)
    (bt ut : Option String) (tr : Trace) (tok : String) :
    cfg.cache_enabled = false →
    (verifyStep cfg env cache f1 f2 bt ut tr).trace.resolved_token = some tok →
    (verifyStep cfg env cache f1 f2 bt ut tr).trace.auth_test_calls = 1 := by
  unfold verifyStep
  split
  · intro _ hres; simp at hres
  · rename_i token h
    split
    · rename_i hcond
      intro hcfg _
      rw [hcfg] at hcond
      simp at hcond
    · split
      · intro _ _; rfl
      · intro _ _; rfl

/-- A freshly built decision carries exactly the tracked token
candidates. -/
theorem verifyStep_decision (cfg : Config) (env : Env)
    (cache : List (String × AuthorizeResult)) (f1 f2 : Option Bool)
    (bt ut : Option String) (tr : Trace) (d : AuthorizeResult)
    (p : Option String × Option String) :
    (verifyStep cfg env cache f1 f2 bt ut tr).outcome = .ok (some d) →
    (verifyStep cfg env cache f1 f2 bt ut tr).trace.decision_tokens = some p →
    d.bot_token = bt ∧ d.user_token = ut := by
  unfold verifyStep
  split
  · intro _ hdec; simp at hdec
  · rename_i tok h
    split
    · intro _ hdec; simp at hdec
    · split
      · intro _ hdec; simp at hdec
      · rename_i resp hsome
        intro hout _
        simp at hout
        subst hout
        simp [AuthorizeResult.from_auth_test_response]

/-- `verifyStep` calls the verifier at most once. -/
theorem verifyStep_auth_le (cfg : Config) (env : Env)
    (cache : List (String × AuthorizeResult)) (f1 f2 : Option Bool)
    (bt ut : Option String) (tr : Trace) :
    (verifyStep cfg env cache f1 f2 bt ut tr).trace.auth_test_calls ≤ 1 :=
  (verifyStep_props cfg env cache f1 f2 bt ut tr).2.2.2.2.2.2.2.2.2.1

/-- Facts about `finishResolve`: it stores the post-full-path
`find_installation_available` flag, records the full-path candidates and
call count in the trace, and attempts the bot-only path exactly when the
source's condition at lines 240-251 holds. -/
theorem finishResolve_props (cfg : Config) (env : Env)
    (cache : List (String × AuthorizeResult)) (fia fba : Bool)
    (bt ut : Option String) (n : Nat) :
    (finishResolve cfg env cache fia fba bt ut n).state.find_installation_available =
      some fia ∧
    (finishResolve cfg env cache fia fba bt ut n).trace.cand_bot = bt ∧
    (finishResolve cfg env cache fia fba bt ut n).trace.cand_user = ut ∧
    (finishResolve cfg env cache fia fba bt ut n).trace.find_installation_calls = n ∧
    ((finishResolve cfg env cache fia fba bt ut n).trace.find_bot_calls = 1 ↔
      (cfg.bot_only = true ∨ fia = false ∨
        (fba = true ∧ bt = none ∧ ut = none))) := by
  unfold finishResolve
  split
  · rename_i hc
    refine ⟨(verifyStep_props _ _ _ _ _ _ _ _).1, ?_, ?_, ?_, ?_⟩
    · exact (verifyStep_props _ _ _ _ _ _ _ _).2.2.2.2.1
    · exact (verifyStep_props _ _ _ _ _ _ _ _).2.2.2.2.2.1
    · exact (verifyStep_props _ _ _ _ _ _ _ _).2.2.1
    · rw [(verifyStep_props _ _ _ _ _ _ _ _).2.2.2.1]
      exact iff_of_true rfl hc
  · rename_i hc
    refine ⟨(verifyStep_props _ _ _ _ _ _ _ _).1, ?_, ?_, ?_, ?_⟩
    · exact (verifyStep_props _ _ _ _ _ _ _ _).2.2.2.2.1
    · exact (verifyStep_props _ _ _ _ _ _ _ _).2.2.2.2.2.1
    · exact (verifyStep_props _ _ _ _ _ _ _ _).2.2.1
    · rw [(verifyStep_props _ _ _ _ _ _ _ _).2.2.2.1]
      exact iff_of_false (by simp) hc

/-- When the full-installation path is enabled, available, and terminates
normally, `resolve` is `finishResolve` on the full path's results. -/
theorem resolve_full_branch (cfg : Config) (shape : StoreShape) (env : Env)
    (st : ResolverState) (coords : Coords)
    (hbo : cfg.bot_only = false)
    (hfia : st.find_installation_available.getD shape.has_find_installation = true)
    (herr : (fullPath cfg env coords).err = none) :
    resolve cfg shape env st coords =
      finishResolve cfg env st.cache (fullPath cfg env coords).fia
        (st.find_bot_available.getD shape.has_find_bot)
        (fullPath cfg env coords).bot_token (fullPath cfg env coords).user_token
        (fullPath cfg env coords).calls := by
  simp [resolve, hbo, hfia, herr]

/-- When the full-installation path terminates abnormally, `resolve`
propagates the exception: no token resolution, no verifier call, no cache
change, and no normal return. -/
theorem resolve_full_branch_err (cfg : Config) (shape : StoreShape) (env : Env)
    (st : ResolverState) (coords : Coords) (e : PathErr)
    (hbo : cfg.bot_only = false)
    (hfia : st.find_installation_available.getD shape.has_find_installation = true)
    (herr : (fullPath cfg env coords).err = some e) :
    (resolve cfg shape env st coords).trace.resolved_token = none ∧
    (resolve cfg shape env st coords).trace.auth_test_calls = 0 ∧
    (resolve cfg shape env st coords).trace.auth_test_token = none ∧
    (resolve cfg shape env st coords).state.cache = st.cache ∧
    ∀ o, (resolve cfg shape env st coords).outcome ≠ .ok o := by
  cases e <;> simp [resolve, hbo, hfia, herr]

/-- When the full-installation path is skipped (bot-only mode or
unavailable installation lookup), `resolve` is `finishResolve` on empty
candidates. -/
theorem resolve_skip_branch (cfg : Config) (shape : StoreShape) (env : Env)
    (st : ResolverState) (coords : Coords)
    (h : ¬(cfg.bot_only = false ∧
      st.find_installation_available.getD shape.has_find_installation = true)) :
    resolve cfg shape env st coords =
      finishResolve cfg env st.cache
        (st.find_installation_available.getD shape.has_find_installation)
        (st.find_bot_available.getD shape.has_find_bot) none none 0 := by
  simp only [resolve]
  rw [if_neg h]

/-- Every resolve call either reaches the verification step on the
original cache, or aborts with a propagated exception. -/
theorem resolve_shape (cfg : Config) (shape : StoreShape) (env : Env)
    (st : ResolverState) (coords : Coords) :
    (∃ f1 f2 bt ut tr, resolve cfg shape env st coords =
        verifyStep cfg env st.cache f1 f2 bt ut tr) ∨
    ((resolve cfg shape env st coords).trace.resolved_token = none ∧
     (resolve cfg shape env st coords).trace.auth_test_calls = 0 ∧
     (resolve cfg shape env st coords).trace.auth_test_token = none ∧
     (resolve cfg shape env st coords).state.cache = st.cache ∧
     ∀ o, (resolve cfg shape env st coords).outcome ≠ .ok o) := by
  by_cases hc : cfg.bot_only = false ∧
      st.find_installation_available.getD shape.has_find_installation = true
  · rcases herr : (fullPath cfg env coords).err with _ | e
    · left
      rw [resolve_full_branch cfg shape env st coords hc.1 hc.2 herr]
      unfold finishResolve
      split
      · exact ⟨_, _, _, _, _, rfl⟩
      · exact ⟨_, _, _, _, _, rfl⟩
    · right
      exact resolve_full_branch_err cfg shape env st coords e hc.1 hc.2 herr
  · left
    rw [resolve_skip_branch cfg shape env st coords hc]
    unfold finishResolve
    split
    · exact ⟨_, _, _, _, _, rfl⟩
    · exact ⟨_, _, _, _, _, rfl⟩

/-- A normally returning resolve call went through `finishResolve` with
the step-1 `find_bot_available` flag and the original cache. -/
theorem resolve_ok_finish (cfg : Config) (shape : StoreShape) (env : Env)
    (st : ResolverState) (coords : Coords)
    (hok : ∃ o, (resolve cfg shape env st coords).outcome = .ok o) :
    ∃ fia bt ut n, resolve cfg shape env st coords =
      finishResolve cfg env st.cache fia
        (st.find_bot_available.getD shape.has_find_bot) bt ut n := by
  by_cases hc : cfg.bot_only = false ∧
      st.find_installation_available.getD shape.has_find_installation = true
  · rcases herr : (fullPath cfg env coords).err with _ | e
    · exact ⟨(fullPath cfg env coords).fia, (fullPath cfg env coords).bot_token,
        (fullPath cfg env coords).user_token, (fullPath cfg env coords).calls,
        resolve_full_branch cfg shape env st coords hc.1 hc.2 herr⟩
    · obtain ⟨o, ho⟩ := hok
      exact absurd ho
        ((resolve_full_branch_err cfg shape env st coords e hc.1 hc.2 herr).2.2.2.2 o)
  · exact ⟨st.find_installation_available.getD shape.has_find_installation,
      none, none, 0, resolve_skip_branch cfg shape env st coords hc⟩

/-- With the `find_installation_available` flag already memoized to
`false`, a resolve call makes no installation lookup, goes straight to the
bot-only path, and keeps the flag at `false`. -/
theorem resolve_flag_false (cfg : Config) (shape : StoreShape) (env : Env)
    (st : ResolverState) (coords : Coords)
    (h : st.find_installation_available = some false) :
    (resolve cfg shape env st coords).trace.find_installation_calls = 0 ∧
    (resolve cfg shape env st coords).trace.find_bot_calls = 1 ∧
    (resolve cfg shape env st coords).state.find_installation_available =
      some false := by
  have hskip : ¬(cfg.bot_only = false ∧
      st.find_installation_available.getD shape.has_find_installation = true) := by
    rintro ⟨_, h2⟩
    rw [h] at h2
    simp at h2
  rw [resolve_skip_branch cfg shape env st coords hskip, h]
  obtain ⟨h1, _, _, h4, h5⟩ := finishResolve_props cfg env st.cache
    ((some false).getD shape.has_find_installation)
    (st.find_bot_available.getD shape.has_find_bot) none none 0
  refine ⟨h4, ?_, ?_⟩
  · exact h5.mpr (Or.inr (Or.inl rfl))
  · exact h1

/-- Once the flag is memoized to `false`, every later call in a sequence
makes no installation lookup and exactly one bot lookup. -/
theorem runCalls_flag_false (cfg : Config) (shape : StoreShape)
    (calls : List (Env × Coords)) :
    ∀ st : ResolverState, st.find_installation_available = some false →
    ∀ r ∈ runCalls cfg shape st calls,
      r.trace.find_installation_calls = 0 ∧ r.trace.find_bot_calls = 1 := by
  induction calls with
  | nil =>
    intro st _ r hr
    cases hr
  | cons ec rest ih =>
    intro st h r hr
    obtain ⟨env, coords⟩ := ec
    simp only [runCalls] at hr
    rcases List.mem_cons.mp hr with h1 | h1
    · subst h1
      exact ⟨(resolve_flag_false cfg shape env st coords h).1,
             (resolve_flag_false cfg shape env st coords h).2.1⟩
    · exact ih _ (resolve_flag_false cfg shape env st coords h).2.2 r h1

/-- Claim C4: once the installation lookup raises `NotImplementedError`
during a resolve call, the `find_installation_available` flag is set to
`false` and stays `false`; every subsequent resolve call on the same
resolver instance makes no installation lookup and proceeds directly to
the bot-only path (exactly one bot lookup). -/
theorem c4_not_implemented_memoized (cfg : Config) (shape : StoreShape)
    (env : Env) (st : ResolverState) (coords : Coords)
    (calls : List (Env × Coords))
    (hbo : cfg.bot_only = false)
    (hfia : st.find_installation_available.getD shape.has_find_installation = true)
    (hni : env.find_installation = none) :
    (resolve cfg shape env st coords).state.find_installation_available =
      some false ∧
    ∀ r ∈ runCalls cfg shape (resolve cfg shape env st coords).state calls,
      r.trace.find_installation_calls = 0 ∧ r.trace.find_bot_calls = 1 := by
  have hfp : fullPath cfg env coords = ⟨none, none, false, 1, none⟩ := by
    unfold fullPath
    rw [hni]
  have herr : (fullPath cfg env coords).err = none := by rw [hfp]
  have h1 : (resolve cfg shape env st coords).state.find_installation_available =
      some false := by
    rw [resolve_full_branch cfg shape env st coords hbo hfia herr]
    rw [(finishResolve_props cfg env st.cache (fullPath cfg env coords).fia
      (st.find_bot_available.getD shape.has_find_bot)
      (fullPath cfg env coords).bot_token (fullPath cfg env coords).user_token
      (fullPath cfg env coords).calls).1]
    rw [hfp]
  exact ⟨h1, fun r hr => runCalls_flag_false cfg shape calls _ h1 r hr⟩

/-- Witness for C4 at concrete inputs: `envNoInst` raises
`NotImplementedError` from the installation lookup. -/
theorem c4_witness :
    (resolve cfgPlain shape1 envNoInst st0 coordsU1).state.find_installation_available =
      some false :=
  (c4_not_implemented_memoized cfgPlain shape1 envNoInst st0 coordsU1
    [(envNoInst, coordsU1)] rfl rfl rfl).1

/-- Claim C5 (amended): with caching enabled, for two consecutive resolve
calls on the same resolver instance that resolve to the same token
string, if the first call returns a decision (successful verification or
cache hit) then the verifier is invoked at most once across the two
calls; when the first call's verification rejects the token, no cache
entry is written, so the second call invokes the verifier again (the
counterexample); with caching disabled, both calls invoke the verifier. -/
theorem c5_cache_verifier_invocations (cfg : Config) (shape : StoreShape)
    (env1 env2 : Env) (st : ResolverState) (coords1 coords2 : Coords)
    (tok : String) (d : AuthorizeResult)
    (h1 : (resolve cfg shape env1 st coords1).trace.resolved_token = some tok)
    (h2 : (resolve cfg shape env2 (resolve cfg shape env1 st coords1).state
        coords2).trace.resolved_token = some tok) :
    (cfg.cache_enabled = true →
      (resolve cfg shape env1 st coords1).outcome = .ok (some d) →
      (resolve cfg shape env1 st coords1).trace.auth_test_calls +
        (resolve cfg shape env2 (resolve cfg shape env1 st coords1).state
          coords2).trace.auth_test_calls ≤ 1) ∧
    (cfg.cache_enabled = false →
      (resolve cfg shape env1 st coords1).trace.auth_test_calls = 1 ∧
      (resolve cfg shape env2 (resolve cfg shape env1 st coords1).state
        coords2).trace.auth_test_calls = 1) := by
  rcases resolve_shape cfg shape env1 st coords1 with
    ⟨f1, f2, bt, ut, tr, heq1⟩ | ⟨hres1, _⟩
  · rcases resolve_shape cfg shape env2 (resolve cfg shape env1 st coords1).state
        coords2 with ⟨g1, g2, bt2, ut2, tr2, heq2⟩ | ⟨hres2, _⟩
    · constructor
      · intro hcfg hok
        have hlook : (cacheLookup (resolve cfg shape env1 st coords1).state.cache
            tok).isSome := by
          rw [heq1]
          exact verifyStep_cache_of_ok cfg env1 st.cache f1 f2 bt ut tr d tok hcfg
            (heq1 ▸ hok) (heq1 ▸ h1)
        have ha2 : (resolve cfg shape env2
            (resolve cfg shape env1 st coords1).state
            coords2).trace.auth_test_calls = 0 := by
          rw [heq2]
          exact verifyStep_cachehit_no_auth cfg env2
            (resolve cfg shape env1 st coords1).state.cache g1 g2 bt2 ut2 tr2 tok
            hcfg hlook (heq2 ▸ h2)
        have ha1 : (resolve cfg shape env1 st
            coords1).trace.auth_test_calls ≤ 1 := by
          rw [heq1]
          exact verifyStep_auth_le cfg env1 st.cache f1 f2 bt ut tr
        omega
      · intro hcfg
        constructor
        · rw [heq1]
          exact verifyStep_nocache_auth cfg env1 st.cache f1 f2 bt ut tr tok hcfg
            (heq1 ▸ h1)
        · rw [heq2]
          exact verifyStep_nocache_auth cfg env2
            (resolve cfg shape env1 st coords1).state.cache g1 g2 bt2 ut2 tr2 tok
            hcfg (heq2 ▸ h2)
    · rw [hres2] at h2
      cases h2
  · rw [hres1] at h1
    cases h1

/-- Witness for C5 at concrete inputs: cache enabled, both calls resolve
`"xoxb-1"`, the first verification succeeds, so the verifier runs at most
once across the two calls. -/
theorem c5_witness :
    (resolve cfgBotOnlyCache shape1 envBotOk st0 coordsU1).trace.auth_test_calls +
      (resolve cfgBotOnlyCache shape1 envBotOk
        (resolve cfgBotOnlyCache shape1 envBotOk st0 coordsU1).state
        coordsU1).trace.auth_test_calls ≤ 1 :=
  (c5_cache_verifier_invocations cfgBotOnlyCache shape1 envBotOk envBotOk st0
    coordsU1 coordsU1 "xoxb-1" dBotPlain rfl rfl).1 rfl rfl

/-- Claim C6: whenever the verifier rejects the resolved token with the
invalid-credential signal, `resolve` returns NotFound (not an exception)
and leaves the result cache unchanged. -/
theorem c6_reject_not_found_cache_unchanged (cfg : Config)
    (shape : StoreShape) (env : Env) (st : ResolverState) (coords : Coords)
    (t : String)
    (htok : (resolve cfg shape env st coords).trace.auth_test_token = some t)
    (hrej : env.auth_test t = none) :
    (resolve cfg shape env st coords).outcome = .ok none ∧
    (resolve cfg shape env st coords).state.cache = st.cache := by
  rcases resolve_shape cfg shape env st coords with
    ⟨f1, f2, bt, ut, tr, heq⟩ | ⟨_, _, hat, _, _⟩
  · rw [heq] at htok ⊢
    exact verifyStep_reject cfg env st.cache f1 f2 bt ut tr t htok hrej
  · rw [hat] at htok
    cases htok

/-- Witness for C6 at concrete inputs: the verifier rejects `"xoxb-1"`. -/
theorem c6_witness :
    (resolve cfgBotOnly shape1 envReject st0 coordsU1).outcome = .ok none ∧
    (resolve cfgBotOnly shape1 envReject st0 coordsU1).state.cache = st0.cache :=
  c6_reject_not_found_cache_unchanged cfgBotOnly shape1 envReject st0 coordsU1
    "xoxb-1" rfl rfl

/-- Claim C7 (amended): for every resolve call, the token handed to the
verifier is `bot_token or user_token` — the bot token when it is present
(non-null and non-empty, the code's presence test), otherwise the user
token; and when the call completes normally with neither a bot token nor
a user token found, it returns NotFound.  (As the counterexample shows, a
call may instead raise the configuration error while no token was found,
so the NotFound conclusion holds for normally returning calls.) -/
theorem c7_token_resolution (cfg : Config) (shape : StoreShape) (env : Env)
    (st : ResolverState) (coords : Coords) :
    (∀ t, (resolve cfg shape env st coords).trace.auth_test_token = some t →
      pyOr (resolve cfg shape env st coords).trace.final_bot
        (resolve cfg shape env st coords).trace.final_user = some t) ∧
    ((resolve cfg shape env st coords).trace.final_bot = none →
     (resolve cfg shape env st coords).trace.final_user = none →
     ∀ o, (resolve cfg shape env st coords).outcome = .ok o → o = none) := by
  rcases resolve_shape cfg shape env st coords with
    ⟨f1, f2, bt, ut, tr, heq⟩ | ⟨_, _, hat, _, hne⟩
  · rw [heq]
    obtain ⟨_, _, _, _, _, _, hfb, hfu, _, _, _⟩ :=
      verifyStep_props cfg env st.cache f1 f2 bt ut tr
    constructor
    · intro t ht
      rw [hfb, hfu]
      exact verifyStep_auth_token_some cfg env st.cache f1 f2 bt ut tr t ht
    · intro hb hu o ho
      rw [hfb] at hb
      rw [hfu] at hu
      subst hb
      subst hu
      have hnone : (verifyStep cfg env st.cache f1 f2 none none tr).outcome =
          .ok none := rfl
      rw [hnone] at ho
      injection ho with ho
      exact ho.symm
  · constructor
    · intro t ht
      rw [hat] at ht
      cases ht
    · intro _ _ o ho
      exact absurd ho (hne o)

/-- Witness for C7 at concrete inputs: the verifier received the bot
token `"xoxb-1"`, which is `bot_token or user_token`. -/
theorem c7_witness :
    pyOr (resolve cfgBotOnly shape1 envBotOk st0 coordsU1).trace.final_bot
      (resolve cfgBotOnly shape1 envBotOk st0 coordsU1).trace.final_user =
      some "xoxb-1" :=
  (c7_token_resolution cfgBotOnly shape1 envBotOk st0 coordsU1).1 "xoxb-1" rfl

/-- Claim C8: for every normally returning resolve call, the bot-record
lookup is attempted if and only if bot-only mode is configured, or the
installation-lookup capability is unavailable, or the full-installation
path yielded neither a bot token nor a user token while the bot-lookup
capability is known to be available. -/
theorem c8_bot_path_condition (cfg : Config) (shape : StoreShape) (env : Env)
    (st : ResolverState) (coords : Coords) (o : Option AuthorizeResult)
    (hout : (resolve cfg shape env st coords).outcome = .ok o) :
    ((resolve cfg shape env st coords).trace.find_bot_calls = 1 ↔
      (cfg.bot_only = true ∨
       (resolve cfg shape env st coords).state.find_installation_available =
         some false ∨
       (st.find_bot_available.getD shape.has_find_bot = true ∧
        (resolve cfg shape env st coords).trace.cand_bot = none ∧
        (resolve cfg shape env st coords).trace.cand_user = none))) := by
  obtain ⟨fia, bt, ut, n, heq⟩ :=
    resolve_ok_finish cfg shape env st coords ⟨o, hout⟩
  rw [heq]
  obtain ⟨hflag, hcb, hcu, _, hiff⟩ := finishResolve_props cfg env st.cache fia
    (st.find_bot_available.getD shape.has_find_bot) bt ut n
  rw [hflag, hcb, hcu, hiff]
  simp

/-- Witness for C8 at concrete inputs: in bot-only mode the bot lookup is
attempted. -/
theorem c8_witness :
    (resolve cfgBotOnly shape1 envBotOk st0 coordsU1).trace.find_bot_calls = 1 :=
  (c8_bot_path_condition cfgBotOnly shape1 envBotOk st0 coordsU1
    (some dBotPlain) rfl).mpr (Or.inl rfl)

/-- If `_rotate_and_save_tokens_if_necessary` produced a rotation result,
it came from the rotator. -/
theorem rotate_rotated (cfg : Config) (env : Env) (i r : Installation)
    (h : rotate_and_save_tokens_if_necessary cfg env (some i) = .rotated r) :
    env.rotate_installation i = some r := by
  simp only [rotate_and_save_tokens_if_necessary] at h
  split_ifs at h
  split at h
  · rename_i refreshed heq
    injection h with h
    rw [h] at heq
    exact heq
  · cases h

/-- The owner-mismatch clearing touches only the user token and scopes. -/
theorem latestAfterOwnerCheck_bot (inst : Installation) (uid : Option String) :
    (latestAfterOwnerCheck inst uid).bot_token = inst.bot_token := by
  unfold latestAfterOwnerCheck
  split <;> rfl

/-- `afterUserStep` either raises the configuration error or terminates
normally with the rotation-updated bot token. -/
theorem afterUserStep_cases (cfg : Config) (env : Env) (l : Installation)
    (bt ut : Option String) (tu : Option Installation) (calls : Nat) :
    (afterUserStep cfg env l bt ut tu calls).err = some .config ∨
    ((afterUserStep cfg env l bt ut tu calls).err = none ∧
     (afterUserStep cfg env l bt ut tu calls).fia = true ∧
     (afterUserStep cfg env l bt ut tu calls).bot_token =
       refreshedBot cfg env l bt) := by
  unfold afterUserStep refreshedBot
  rcases h : rotate_and_save_tokens_if_necessary cfg env (some l) with _ | r | _ <;>
    simp [h]

/-- Under the spec's rotator contract, refreshing a record whose bot token
is present yields a present bot token. -/
theorem refreshedBot_isSome (cfg : Config) (env : Env) (l : Installation)
    (bt : Option String) (b : String)
    (hrot : RotatorOK env.rotate_installation)
    (hlb : l.bot_token = bt) (hbt : bt = some b) :
    (refreshedBot cfg env l bt).isSome := by
  unfold refreshedBot
  rcases h : rotate_and_save_tokens_if_necessary cfg env (some l) with _ | r | _ <;>
    simp only [h]
  · rw [hbt]; rfl
  · have hr := rotate_rotated cfg env l r h
    rcases hbr : l.bot_refresh_token with _ | rt
    · rw [(hrot l r hr).2 hbr, hlb, hbt]; rfl
    · exact (hrot l r hr).1 (by simp [hbr])
  · rw [hbt]; rfl

/-- When the latest-installation lookup finds a record, the full path
either raises, or reduces to `afterUserStep` on the owner-checked latest
record, with a bot-token candidate that equals the latest record's bot
token whenever that token is present (the guards at lines 212 and 222
never overwrite a present latest bot token with user-specific data). -/
theorem fullPath_found_eq (cfg : Config) (env : Env) (coords : Coords)
    (lookups : InstallationLookups) (inst : Installation)
    (hf : env.find_installation = some lookups)
    (hl : lookups.latest = .found inst) :
    (∃ e, (fullPath cfg env coords).err = some e) ∨
    ∃ bt ut tu calls,
      fullPath cfg env coords =
        afterUserStep cfg env (latestAfterOwnerCheck inst coords.user_id)
          bt ut tu calls ∧
      (inst.bot_token.isSome = true → bt = inst.bot_token) := by
  simp only [fullPath, latestAfterOwnerCheck, hf, hl]
  by_cases hmis : inst.user_id ≠ coords.user_id
  · rw [if_pos hmis, if_pos hmis]
    rcases hfu : lookups.forUser with tui | _ | _ <;> simp only [hfu]
    · rcases hrtu : rotate_and_save_tokens_if_necessary cfg env (some tui) with
        _ | rr | _ <;> simp only [hrtu]
      · right
        refine ⟨_, _, _, _, rfl, ?_⟩
        intro hsome
        rw [if_neg (Option.isSome_iff_ne_none.mp hsome)]
      · right
        refine ⟨_, _, _, _, rfl, ?_⟩
        intro hsome
        rw [if_neg (Option.isSome_iff_ne_none.mp hsome),
          if_neg (Option.isSome_iff_ne_none.mp hsome)]
      · left
        exact ⟨.config, rfl⟩
    · right
      exact ⟨_, _, _, _, rfl, fun _ => rfl⟩
    · left
      exact ⟨.store, rfl⟩
  · rw [if_neg hmis, if_neg hmis]
    right
    exact ⟨_, _, _, _, rfl, fun _ => rfl⟩

/-- When the full path terminates normally after finding a latest
installation whose bot token is present, the flag stays available and the
bot candidate is exactly the latest installation's possibly refreshed bot
token, which is still present. -/
theorem fullPath_latest_bot (cfg : Config) (env : Env) (coords : Coords)
    (lookups : InstallationLookups) (inst : Installation) (b : String)
    (hrot : RotatorOK env.rotate_installation)
    (hf : env.find_installation = some lookups)
    (hl : lookups.latest = .found inst)
    (hb : inst.bot_token = some b)
    (herr : (fullPath cfg env coords).err = none) :
    (fullPath cfg env coords).fia = true ∧
    (fullPath cfg env coords).bot_token =
      latestRefreshedBotToken cfg env inst coords.user_id ∧
    (fullPath cfg env coords).bot_token.isSome := by
  rcases fullPath_found_eq cfg env coords lookups inst hf hl with
    ⟨e, he⟩ | ⟨bt, ut, tu, calls, heq, hbt⟩
  · rw [he] at herr
    cases herr
  · have hbt' : bt = inst.bot_token := hbt (by rw [hb]; rfl)
    subst hbt'
    rw [heq] at herr ⊢
    rcases afterUserStep_cases cfg env (latestAfterOwnerCheck inst coords.user_id)
        inst.bot_token ut tu calls with h | ⟨_, h2, h4⟩
    · rw [h] at herr
      cases herr
    · refine ⟨h2, ?_, ?_⟩
      · rw [h4]
        rfl
      · rw [h4]
        exact refreshedBot_isSome cfg env
          (latestAfterOwnerCheck inst coords.user_id) inst.bot_token b hrot
          (latestAfterOwnerCheck_bot inst coords.user_id) hb

/-- Claim C2 (amended): for every resolve call in which the latest
installation supplies a non-null bot token and which returns a freshly
built (not cache-replayed) decision, the decision's bot token equals the
latest installation's possibly refreshed bot token — neither the
user-specific installation's bot token nor its refresh result ever
overwrites it, and the bot-only path is never entered.  (The rotator,
which is repository code outside the sources here, is assumed to satisfy
the spec's contract `RotatorOK`; the counterexample shows the cache-replay
case the original claim does not survive.) -/
theorem c2_latest_bot_token_precedence (cfg : Config) (shape : StoreShape)
    (env : Env) (st : ResolverState) (coords : Coords)
    (lookups : InstallationLookups) (inst : Installation) (b : String)
    (d : AuthorizeResult) (p : Option String × Option String)
    (hrot : RotatorOK env.rotate_installation)
    (hbo : cfg.bot_only = false)
    (hfia : st.find_installation_available.getD shape.has_find_installation = true)
    (hf : env.find_installation = some lookups)
    (hl : lookups.latest = .found inst)
    (hb : inst.bot_token = some b)
    (hout : (resolve cfg shape env st coords).outcome = .ok (some d))
    (hfresh : (resolve cfg shape env st coords).trace.decision_tokens = some p) :
    d.bot_token = latestRefreshedBotToken cfg env inst coords.user_id := by
  rcases herr : (fullPath cfg env coords).err with _ | e
  · obtain ⟨hfia1, hbtok, hsome⟩ :=
      fullPath_latest_bot cfg env coords lookups inst b hrot hf hl hb herr
    have hres := resolve_full_branch cfg shape env st coords hbo hfia herr
    rw [hres] at hout hfresh
    have hcond : ¬(cfg.bot_only = true ∨ (fullPath cfg env coords).fia = false ∨
        ((st.find_bot_available.getD shape.has_find_bot) = true ∧
         (fullPath cfg env coords).bot_token = none ∧
         (fullPath cfg env coords).user_token = none)) := by
      rintro (h | h | ⟨_, h, _⟩)
      · rw [hbo] at h
        cases h
      · rw [hfia1] at h
        cases h
      · rw [h] at hsome
        cases hsome
    simp only [finishResolve] at hout hfresh
    rw [if_neg hcond] at hout hfresh
    rw [(verifyStep_decision _ _ _ _ _ _ _ _ d p hout hfresh).1]
    exact hbtok
  · exact absurd hout
      ((resolve_full_branch_err cfg shape env st coords e hbo hfia herr).2.2.2.2
        (some d))

/-- Witness for C2 at concrete inputs: the latest installation supplies
`xoxb-9`, nothing is rotated, and the fresh decision carries exactly that
token. -/
theorem c2_witness :
    dC2w.bot_token = latestRefreshedBotToken cfgPlain envC2w instC2w (some "U1") :=
  c2_latest_bot_token_precedence cfgPlain shape1 envC2w st0 coordsU1
    ⟨.found instC2w, .empty⟩ instC2w "xoxb-9" dC2w (some "xoxb-9", none)
    (fun _ _ h => nomatch h) rfl rfl rfl rfl rfl rfl rfl

/-- Deleting a key removes it from the bucket. -/
theorem bucketGet_delete (b : List (String × Int)) (k : String) :
    bucketGet (bucketDelete b k) k = none := by
  induction b with
  | nil => rfl
  | cons p rest ih =>
    unfold bucketDelete at ih ⊢
    rw [List.filter_cons]
    by_cases h : p.1 == k
    · simp [h, ih]
    · simp [bucketGet, List.find?_cons, h, ih]

/-- `put_object` stores the body under the key. -/
theorem bucketGet_put (b : List (String × Int)) (k : String) (v : Int) :
    bucketGet (bucketPut b k v) k = some v := by
  simp [bucketGet, bucketPut, List.find?_cons]

/-- Claim C10: `consume` is check-once.  A successful lookup returns the
validity flag but deletes the stored object unconditionally (even when
already expired); a lookup failure (including a missing key) returns
`false` and leaves the bucket as is; hence consuming an issued state a
second time after a successful first consume returns `false`. -/
theorem c10_consume_check_once (b : List (String × Int)) (state : String)
    (expiration_seconds created now now2 : Int)
    (h : bucketGet b state = some created) :
    (consume expiration_seconds b state now).1 =
      decide (now < created + expiration_seconds) ∧
    (consume expiration_seconds b state now).2 = bucketDelete b state ∧
    bucketGet (consume expiration_seconds b state now).2 state = none ∧
    consume expiration_seconds (consume expiration_seconds b state now).2
      state now2 = (false, bucketDelete b state) ∧
    (∀ b2 : List (String × Int), bucketGet b2 state = none →
      consume expiration_seconds b2 state now2 = (false, b2)) ∧
    bucketGet (issue b state created) state = some created := by
  have hdel : bucketGet (bucketDelete b state) state = none :=
    bucketGet_delete b state
  refine ⟨?_, ?_, ?_, ?_, ?_, ?_⟩
  · simp [consume, h]
  · simp [consume, h]
  · simp [consume, h, hdel]
  · simp [consume, h, hdel]
  · intro b2 h2; simp [consume, h2]
  · exact bucketGet_put b state created

/-- Witness for C10 at concrete inputs: a state issued at time 5 with a
30-second window, consumed at times 10 and 11. -/
theorem c10_witness :
    (consume 30 [("state-1", 5)] "state-1" 10).1 = decide ((10 : Int) < 5 + 30) ∧
    consume 30 (consume 30 [("state-1", 5)] "state-1" 10).2 "state-1" 11 =
      (false, bucketDelete [("state-1", 5)] "state-1") :=
  ⟨(c10_consume_check_once [("state-1", 5)] "state-1" 30 5 10 11 rfl).1,
   (c10_consume_check_once [("state-1", 5)] "state-1" 30 5 10 11 rfl).2.2.2.1⟩

end SlackBolt
